import Mathlib

/-!
Shallow embedding of the connection-pool and repository layer of the
`src/database` package (`connection.py`, `repository.py`).

Conventions of the embedding:
* SQLite values are modelled by the dynamic type `Value` (integers, reals as
  exact rationals, strings, null); a result row (`dict(row)` in the source)
  is an association list from column name to `Value`.
* The pool's `Queue` of connections is a FIFO list of connection identifiers;
  `get` takes from the front, `put` appends at the back.
* A unit of work run under `ConnectionPool.acquire` is a function from a
  connection id and the durable database state to `Except Err (α × Db)`;
  commit installs the returned state, rollback keeps the original state,
  mirroring the transaction on the borrowed connection.
* `acquire` also records a trace of the actions it performs, the sequence of
  pool states it passes through, and the wait time it spends blocked, so that
  the spec's invariants about exit paths and timeouts can be stated.
-/

/-- Dynamic SQLite value, as stored in a result row. -/
inductive Value where
  | int (n : Int)
  | real (q : Rat)
  | str (s : String)
  | null
deriving DecidableEq, Repr

/-- A result row: `dict(row)` from the source, column name to value. -/
abbrev Row : Type := List (String × Value)

/-- Look a column up in a row, first binding wins (dict semantics). -/
def lookupCol (row : Row) (k : String) : Option Value :=
  (row.find? (fun p => p.1 == k)).map (fun p => p.2)

/-- A row of the `users` table as stored by the datastore. -/
structure UserRow where
  id : Int
  username : String
  email : String
  password_hash : String
  is_active : Int
deriving DecidableEq, Repr

/-- A row of the `orders` table as stored by the datastore. -/
structure OrderRow where
  id : Int
  user_id : Int
  total_amount : Rat
  status : String
  created_at : String
deriving DecidableEq, Repr

/-- Durable database state: the two tables, the next generated order id,
and the current timestamp used for `created_at` defaults. -/
structure Db where
  users : List UserRow
  orders : List OrderRow
  nextUserId : Int
  nextOrderId : Int
  now : String
deriving DecidableEq, Repr

/-- Errors of the layer: pool exhaustion (the `RuntimeError` raised by
`acquire`), a datastore statement failure, and a row-mapping failure
(Python `TypeError` from keyword unpacking). -/
inductive Err where
  | poolExhausted
  | queryFailure (msg : String)
  | mappingFailure (msg : String)
deriving DecidableEq, Repr

/-- The typed user record of `repository.py`. Python dataclasses do not
check field values at runtime, so each field holds a dynamic `Value`. -/
structure UserRecord where
  id : Value
  username : Value
  email : Value
  password_hash : Value
  is_active : Value
deriving DecidableEq, Repr

/-- The typed order record of `repository.py`; fields are dynamic values,
as in `UserRecord`. -/
structure OrderRecord where
  id : Value
  user_id : Value
  total_amount : Value
  status : Value
  created_at : Value
deriving DecidableEq, Repr

/-- Field names of `UserRecord`, in declaration order. -/
def userFields : List String :=
  ["id", "username", "email", "password_hash", "is_active"]

/-- Field names of `OrderRecord`, in declaration order. -/
def orderFields : List String :=
  ["id", "user_id", "total_amount", "status", "created_at"]

/-- Row-to-record mapping `UserRecord(**row)`: keyword unpacking fails on a
key that is not a field name and on a missing field, and binds values as
they are, with no type check. -/
def userRecFromRow (row : Row) : Except Err UserRecord :=
  if row.all (fun p => userFields.contains p.1) then
    match lookupCol row "id", lookupCol row "username", lookupCol row "email",
        lookupCol row "password_hash", lookupCol row "is_active" with
    | some i, some u, some e, some ph, some ia =>
        .ok ⟨i, u, e, ph, ia⟩
    | _, _, _, _, _ =>
        .error (.mappingFailure "missing required column for UserRecord")
  else
    .error (.mappingFailure "unexpected column for UserRecord")

/-- Row-to-record mapping `OrderRecord(**row)`, same keyword-unpacking
semantics as `userRecFromRow`. -/
def orderRecFromRow (row : Row) : Except Err OrderRecord :=
  if row.all (fun p => orderFields.contains p.1) then
    match lookupCol row "id", lookupCol row "user_id", lookupCol row "total_amount",
        lookupCol row "status", lookupCol row "created_at" with
    | some i, some u, some t, some s, some c =>
        .ok ⟨i, u, t, s, c⟩
    | _, _, _, _, _ =>
        .error (.mappingFailure "missing required column for OrderRecord")
  else
    .error (.mappingFailure "unexpected column for OrderRecord")

/-- Actions performed by one `acquire` call, in order. -/
inductive PoolAction where
  | tryGet
  | got (c : Nat)
  | commit (c : Nat)
  | rollback (c : Nat)
  | put (c : Nat)
  | raisedExhausted
deriving DecidableEq, Repr

/-- True exactly on the commit and rollback actions. -/
def PoolAction.isRelease : PoolAction → Bool
  | .commit _ => true
  | .rollback _ => true
  | _ => false

/-- Pool state: the FIFO queue of idle connection ids and the set of
connection ids currently checked out to callers. -/
structure ConnectionPool where
  capacity : Nat
  idle : List Nat
  checkedOut : List Nat
deriving DecidableEq, Repr

/-- Eager construction: a pool of `n` fresh connections, all idle. -/
def ConnectionPool.ofSize (n : Nat) : ConnectionPool :=
  ⟨n, List.range n, []⟩

/-- The fixed acquire-wait timeout (`timeout=5` in the source). -/
def acquireTimeout : Nat := 5

/-- Everything observable about one `acquire` call: the value or error it
returns, the pool and database afterwards, the action trace, the pool
states passed through, and the time spent blocked waiting. -/
structure AcquireOutcome (α : Type) where
  result : Except Err α
  pool : ConnectionPool
  db : Db
  trace : List PoolAction
  states : List ConnectionPool
  elapsed : Nat
deriving Repr

/-- The `acquire` context manager of `connection.py`: take a connection
from the queue (raising the exhaustion error after the full timeout when
none is idle), run the unit of work, commit on success or roll back and
re-raise on failure, and in both cases put the connection back. -/
def ConnectionPool.acquire {α : Type} (p : ConnectionPool) (db : Db)
    (work : Nat → Db → Except Err (α × Db)) : AcquireOutcome α :=
  match p.idle with
  | [] =>
      { result := .error .poolExhausted
        pool := p
        db := db
        trace := [.tryGet, .raisedExhausted]
        states := [p]
        elapsed := acquireTimeout }
  | conn :: rest =>
      let mid : ConnectionPool := ⟨p.capacity, rest, conn :: p.checkedOut⟩
      let fin : ConnectionPool := ⟨p.capacity, rest ++ [conn], p.checkedOut⟩
      match work conn db with
      | .ok (a, db') =>
          { result := .ok a
            pool := fin
            db := db'
            trace := [.tryGet, .got conn, .commit conn, .put conn]
            states := [p, mid, fin]
            elapsed := 0 }
      | .error e =>
          { result := .error e
            pool := fin
            db := db
            trace := [.tryGet, .got conn, .rollback conn, .put conn]
            states := [p, mid, fin]
            elapsed := 0 }

/-- The `close_all` method: drain the idle queue, closing each drained
connection; returns the new pool state and the ids closed. -/
def ConnectionPool.close_all (p : ConnectionPool) : ConnectionPool × List Nat :=
  (⟨p.capacity, [], p.checkedOut⟩, p.idle)

/-- The `QueryResult` dataclass: materialized rows plus the driver's
affected-row count (`cursor.rowcount`; `-1` for a plain SELECT). -/
structure QueryResult where
  rows : List Row
  row_count : Int
deriving DecidableEq, Repr

/-- A statement handed to the driver: its effect on the database, producing
a result and a possibly updated state. -/
def Stmt : Type := Db → Except Err (QueryResult × Db)

/-- The `execute` helper: acquire a connection from the pool and run one
parameterized statement under it, returning the `QueryResult`. -/
def execute (stmt : Stmt) (p : ConnectionPool) (db : Db) :
    AcquireOutcome QueryResult :=
  p.acquire db (fun _ d => stmt d)

/-- Sequential application of one statement per parameter tuple, in input
order, summing the affected counts — `cursor.executemany`. -/
def runMany (stmt : List Value → Db → Except Err (Int × Db)) :
    List (List Value) → Db → Except Err (Int × Db)
  | [], db => .ok (0, db)
  | ps :: rest, db =>
      match stmt ps db with
      | .error e => .error e
      | .ok (n, db') =>
          match runMany stmt rest db' with
          | .error e => .error e
          | .ok (m, db'') => .ok (n + m, db'')

/-- The `execute_many` helper: a single acquire covering the whole batch,
applying the statement once per tuple in input order. -/
def execute_many (stmt : List Value → Db → Except Err (Int × Db))
    (params_list : List (List Value)) (p : ConnectionPool) (db : Db) :
    AcquireOutcome Int :=
  p.acquire db (fun _ d => runMany stmt params_list d)

/-- Projection of a `users` row onto the SELECT column list of the user
queries, as a result row. -/
def userRowToRow (u : UserRow) : Row :=
  [("id", .int u.id), ("username", .str u.username), ("email", .str u.email),
   ("password_hash", .str u.password_hash), ("is_active", .int u.is_active)]

/-- Projection of an `orders` row onto the SELECT column list of the order
queries, as a result row. -/
def orderRowToRow (o : OrderRow) : Row :=
  [("id", .int o.id), ("user_id", .int o.user_id),
   ("total_amount", .real o.total_amount), ("status", .str o.status),
   ("created_at", .str o.created_at)]

/-- Statement semantics of sql_get_user_by_id: rows of `users` matching the
bound id, in table order; SELECT row count is `-1`. -/
def selUserById (user_id : Int) : Stmt := fun db =>
  .ok (⟨(db.users.filter (fun u => u.id == user_id)).map userRowToRow, -1⟩, db)

/-- Statement semantics of sql_get_user_by_username. -/
def selUserByUsername (username : String) : Stmt := fun db =>
  .ok (⟨(db.users.filter (fun u => u.username == username)).map userRowToRow, -1⟩, db)

/-- Statement semantics of sql_create_user: insert with `is_active = 1`
and a generated id; affected count 1. -/
def insUser (username email password_hash : String) : Stmt := fun db =>
  .ok (⟨[], 1⟩,
    { db with
        users := db.users ++ [⟨db.nextUserId, username, email, password_hash, 1⟩]
        nextUserId := db.nextUserId + 1 })

/-- Statement semantics of sql_deactivate_user: conditional update keyed by
id; affected count is the number of matching rows. -/
def updDeactivateUser (user_id : Int) : Stmt := fun db =>
  .ok (⟨[], ((db.users.filter (fun u => u.id == user_id)).length : Int)⟩,
    { db with
        users := db.users.map (fun u =>
          if u.id == user_id then { u with is_active := 0 } else u) })

/-- Statement semantics of sql_get_orders_by_user. -/
def selOrdersByUser (user_id : Int) : Stmt := fun db =>
  .ok (⟨(db.orders.filter (fun o => o.user_id == user_id)).map orderRowToRow, -1⟩, db)

/-- Statement semantics of sql_get_order_by_id. -/
def selOrderById (order_id : Int) : Stmt := fun db =>
  .ok (⟨(db.orders.filter (fun o => o.id == order_id)).map orderRowToRow, -1⟩, db)

/-- Statement semantics of sql_create_order: insert with literal status
`pending`, a generated id and the current timestamp; affected count 1. -/
def insOrder (user_id : Int) (total_amount : Rat) : Stmt := fun db =>
  .ok (⟨[], 1⟩,
    { db with
        orders := db.orders ++ [⟨db.nextOrderId, user_id, total_amount, "pending", db.now⟩]
        nextOrderId := db.nextOrderId + 1 })

/-- Statement semantics of sql_update_order_status. -/
def updOrderStatus (order_id : Int) (status : String) : Stmt := fun db =>
  .ok (⟨[], ((db.orders.filter (fun o => o.id == order_id)).length : Int)⟩,
    { db with
        orders := db.orders.map (fun o =>
          if o.id == order_id then { o with status := status } else o) })

/-- What a repository call returns to its caller: the value or the
propagated error, plus the pool and database afterwards. -/
structure RepoOutcome (α : Type) where
  result : Except Err α
  pool : ConnectionPool
  db : Db
deriving Repr

/-- The repository accessor get_user_by_id: single-row-expected query, `none`
when zero rows match, else the first row mapped through `UserRecord(**row)`. -/
def get_user_by_id (p : ConnectionPool) (db : Db) (user_id : Int) :
    RepoOutcome (Option UserRecord) :=
  let out := execute (selUserById user_id) p db
  match out.result with
  | .error e => ⟨.error e, out.pool, out.db⟩
  | .ok res =>
      match res.rows with
      | [] => ⟨.ok none, out.pool, out.db⟩
      | row :: _ =>
          match userRecFromRow row with
          | .ok r => ⟨.ok (some r), out.pool, out.db⟩
          | .error e => ⟨.error e, out.pool, out.db⟩

/-- The repository accessor get_user_by_username. -/
def get_user_by_username (p : ConnectionPool) (db : Db) (username : String) :
    RepoOutcome (Option UserRecord) :=
  let out := execute (selUserByUsername username) p db
  match out.result with
  | .error e => ⟨.error e, out.pool, out.db⟩
  | .ok res =>
      match res.rows with
      | [] => ⟨.ok none, out.pool, out.db⟩
      | row :: _ =>
          match userRecFromRow row with
          | .ok r => ⟨.ok (some r), out.pool, out.db⟩
          | .error e => ⟨.error e, out.pool, out.db⟩

/-- The repository accessor create_user: returns the affected-row count. -/
def create_user (p : ConnectionPool) (db : Db)
    (username email password_hash : String) : RepoOutcome Int :=
  let out := execute (insUser username email password_hash) p db
  match out.result with
  | .error e => ⟨.error e, out.pool, out.db⟩
  | .ok res => ⟨.ok res.row_count, out.pool, out.db⟩

/-- The repository accessor deactivate_user: true iff the affected-row count
is positive. -/
def deactivate_user (p : ConnectionPool) (db : Db) (user_id : Int) :
    RepoOutcome Bool :=
  let out := execute (updDeactivateUser user_id) p db
  match out.result with
  | .error e => ⟨.error e, out.pool, out.db⟩
  | .ok res => ⟨.ok (res.row_count > 0), out.pool, out.db⟩

/-- Mapping of each result row through the record constructor, first failure
propagated — the list comprehension in get_orders_by_user. -/
def mapRows {β : Type} (f : Row → Except Err β) : List Row → Except Err (List β)
  | [] => .ok []
  | r :: rs =>
      match f r with
      | .error e => .error e
      | .ok b =>
          match mapRows f rs with
          | .error e => .error e
          | .ok bs => .ok (b :: bs)

/-- The repository accessor get_orders_by_user: zero or more mapped records
in the datastore's return order. -/
def get_orders_by_user (p : ConnectionPool) (db : Db) (user_id : Int) :
    RepoOutcome (List OrderRecord) :=
  let out := execute (selOrdersByUser user_id) p db
  match out.result with
  | .error e => ⟨.error e, out.pool, out.db⟩
  | .ok res =>
      match mapRows orderRecFromRow res.rows with
      | .ok recs => ⟨.ok recs, out.pool, out.db⟩
      | .error e => ⟨.error e, out.pool, out.db⟩

/-- The repository accessor get_order_by_id. -/
def get_order_by_id (p : ConnectionPool) (db : Db) (order_id : Int) :
    RepoOutcome (Option OrderRecord) :=
  let out := execute (selOrderById order_id) p db
  match out.result with
  | .error e => ⟨.error e, out.pool, out.db⟩
  | .ok res =>
      match res.rows with
      | [] => ⟨.ok none, out.pool, out.db⟩
      | row :: _ =>
          match orderRecFromRow row with
          | .ok r => ⟨.ok (some r), out.pool, out.db⟩
          | .error e => ⟨.error e, out.pool, out.db⟩

/-- The repository accessor create_order: returns the affected-row count. -/
def create_order (p : ConnectionPool) (db : Db) (user_id : Int)
    (total_amount : Rat) : RepoOutcome Int :=
  let out := execute (insOrder user_id total_amount) p db
  match out.result with
  | .error e => ⟨.error e, out.pool, out.db⟩
  | .ok res => ⟨.ok res.row_count, out.pool, out.db⟩

/-- The repository accessor update_order_status: true iff the affected-row
count is positive. -/
def update_order_status (p : ConnectionPool) (db : Db) (order_id : Int)
    (status : String) : RepoOutcome Bool :=
  let out := execute (updOrderStatus order_id status) p db
  match out.result with
  | .error e => ⟨.error e, out.pool, out.db⟩
  | .ok res => ⟨.ok (res.row_count > 0), out.pool, out.db⟩

/-- The SQL text get_user_by_id hands to the driver, as a function of its
argument (the source passes a fixed literal; the argument goes into the
bound-parameter tuple only). -/
def get_user_by_id_sql (_user_id : Int) : String :=
  "SELECT id, username, email, password_hash, is_active FROM users WHERE id = ?"

/-- The bound positional parameters of get_user_by_id. -/
def get_user_by_id_bound (user_id : Int) : List Value :=
  [.int user_id]

/-- The SQL text get_user_by_username hands to the driver. -/
def get_user_by_username_sql (_username : String) : String :=
  "SELECT id, username, email, password_hash, is_active FROM users WHERE username = ?"

/-- The bound positional parameters of get_user_by_username. -/
def get_user_by_username_bound (username : String) : List Value :=
  [.str username]

/-- The SQL text create_user hands to the driver. -/
def create_user_sql (_username _email _password_hash : String) : String :=
  "INSERT INTO users (username, email, password_hash, is_active) VALUES (?, ?, ?, 1)"

/-- The bound positional parameters of create_user. -/
def create_user_bound (username email password_hash : String) : List Value :=
  [.str username, .str email, .str password_hash]

/-- The SQL text deactivate_user hands to the driver. -/
def deactivate_user_sql (_user_id : Int) : String :=
  "UPDATE users SET is_active = 0 WHERE id = ?"

/-- The bound positional parameters of deactivate_user. -/
def deactivate_user_bound (user_id : Int) : List Value :=
  [.int user_id]

/-- The SQL text get_orders_by_user hands to the driver. -/
def get_orders_by_user_sql (_user_id : Int) : String :=
  "SELECT id, user_id, total_amount, status, created_at FROM orders WHERE user_id = ?"

/-- The bound positional parameters of get_orders_by_user. -/
def get_orders_by_user_bound (user_id : Int) : List Value :=
  [.int user_id]

/-- The SQL text get_order_by_id hands to the driver. -/
def get_order_by_id_sql (_order_id : Int) : String :=
  "SELECT id, user_id, total_amount, status, created_at FROM orders WHERE id = ?"

/-- The bound positional parameters of get_order_by_id. -/
def get_order_by_id_bound (order_id : Int) : List Value :=
  [.int order_id]

/-- The SQL text create_order hands to the driver. -/
def create_order_sql (_user_id : Int) (_total_amount : Rat) : String :=
  "INSERT INTO orders (user_id, total_amount, status) VALUES (?, ?, \x27pending\x27)"

/-- The bound positional parameters of create_order. -/
def create_order_bound (user_id : Int) (total_amount : Rat) : List Value :=
  [.int user_id, .real total_amount]

/-- The SQL text update_order_status hands to the driver. -/
def update_order_status_sql (_order_id : Int) (_status : String) : String :=
  "UPDATE orders SET status = ? WHERE id = ?"

/-- The bound positional parameters of update_order_status (status first,
then id, matching the placeholder order). -/
def update_order_status_bound (order_id : Int) (status : String) : List Value :=
  [.str status, .int order_id]

/-- Concrete database used by witnesses: empty tables. -/
def dbEx : Db := ⟨[], [], 1, 1, "t0"⟩

/-- Concrete unit of work that succeeds without touching the database. -/
def workOk : Nat → Db → Except Err (Nat × Db) := fun _ d => .ok (0, d)

/-- Concrete unit of work that raises. -/
def workFail : Nat → Db → Except Err (Nat × Db) := fun _ _ =>
  .error (.queryFailure "boom")

/-- Concrete pool with one idle and one checked-out connection. -/
def poolW : ConnectionPool := ⟨2, [0], [1]⟩

/-- Concrete quiescent pool with two idle connections. -/
def pool2 : ConnectionPool := ⟨2, [0, 1], []⟩

/-- C1: when the wait succeeds, the connection is returned on every exit
path of the unit of work, so every pool state passed through keeps
idle-count plus checked-out-count equal to the capacity N, and the final
pool holds exactly the same connections as the initial one (none created,
destroyed, or leaked). -/
theorem acquire_preserves_pool_invariant {α : Type} (p : ConnectionPool)
    (db : Db) (work : Nat → Db → Except Err (α × Db)) (N : Nat)
    (hN : p.idle.length + p.checkedOut.length = N) (hgrant : p.idle ≠ []) :
    (∀ s ∈ (p.acquire db work).states,
        s.idle.length + s.checkedOut.length = N) ∧
    ((p.acquire db work).pool.idle ++ (p.acquire db work).pool.checkedOut).Perm
      (p.idle ++ p.checkedOut) := by
  obtain ⟨cap, idle, co⟩ := p
  cases idle with
  | nil => exact absurd rfl hgrant
  | cons conn rest =>
      simp only [List.length_cons] at hN
      cases hw : work conn db with
      | ok v =>
          obtain ⟨a, db'⟩ := v
          constructor
          · intro s hs
            simp only [ConnectionPool.acquire, hw] at hs
            simp only [List.mem_cons, List.mem_singleton] at hs
            rcases hs with h | h | h | h
            · subst h; simpa using hN
            · subst h; simp; omega
            · subst h; simp; omega
            · cases h
          · simp only [ConnectionPool.acquire, hw]
            exact List.Perm.append_right co
              (List.perm_append_comm.trans (by rfl))
      | error e =>
          constructor
          · intro s hs
            simp only [ConnectionPool.acquire, hw] at hs
            simp only [List.mem_cons, List.mem_singleton] at hs
            rcases hs with h | h | h | h
            · subst h; simpa using hN
            · subst h; simp; omega
            · subst h; simp; omega
            · cases h
          · simp only [ConnectionPool.acquire, hw]
            exact List.Perm.append_right co
              (List.perm_append_comm.trans (by rfl))

/-- Witness for the pool invariant at a concrete pool of capacity 2 with
one idle and one checked-out connection and a successful unit of work. -/
theorem acquire_preserves_pool_invariant_witness :
    (∀ s ∈ (poolW.acquire dbEx workOk).states,
        s.idle.length + s.checkedOut.length = 2) ∧
    ((poolW.acquire dbEx workOk).pool.idle ++
        (poolW.acquire dbEx workOk).pool.checkedOut).Perm
      (poolW.idle ++ poolW.checkedOut) :=
  acquire_preserves_pool_invariant poolW dbEx workOk 2 (by decide) (by decide)

/-- C2: exactly one of commit or rollback is applied per granted acquire,
decided solely by the unit of work's outcome; a raising unit of work has
its error re-raised unchanged, and in both cases the connection ends up
back in the idle set. -/
theorem acquire_commit_xor_rollback {α : Type} (p : ConnectionPool) (db : Db)
    (work : Nat → Db → Except Err (α × Db)) (conn : Nat) (rest : List Nat)
    (hidle : p.idle = conn :: rest) :
    ((p.acquire db work).trace.filter PoolAction.isRelease).length = 1 ∧
    (∀ a db', work conn db = .ok (a, db') →
        (p.acquire db work).result = .ok a ∧
        PoolAction.commit conn ∈ (p.acquire db work).trace ∧
        PoolAction.rollback conn ∉ (p.acquire db work).trace ∧
        (p.acquire db work).db = db') ∧
    (∀ e, work conn db = .error e →
        (p.acquire db work).result = .error e ∧
        PoolAction.rollback conn ∈ (p.acquire db work).trace ∧
        PoolAction.commit conn ∉ (p.acquire db work).trace ∧
        (p.acquire db work).db = db) ∧
    conn ∈ (p.acquire db work).pool.idle := by
  obtain ⟨cap, idle, co⟩ := p
  simp only at hidle
  subst hidle
  cases hw : work conn db with
  | ok v =>
      obtain ⟨a, db'⟩ := v
      refine ⟨?_, ?_, ?_, ?_⟩
      · simp [ConnectionPool.acquire, hw, PoolAction.isRelease]
      · intro a' db'' h
        injection h with h
        injection h with h1 h2
        subst h1; subst h2
        simp [ConnectionPool.acquire, hw]
      · intro e h
        simp at h
      · simp [ConnectionPool.acquire, hw]
  | error e =>
      refine ⟨?_, ?_, ?_, ?_⟩
      · simp [ConnectionPool.acquire, hw, PoolAction.isRelease]
      · intro a' db'' h
        simp at h
      · intro e' h
        injection h with h
        subst h
        simp [ConnectionPool.acquire, hw]
      · simp [ConnectionPool.acquire, hw]

/-- Witness for commit-or-rollback at a concrete pool and a raising unit of
work: the error is re-raised, rollback appears in the trace, commit does
not, and the connection is back in the idle set. -/
theorem acquire_commit_xor_rollback_witness :
    ((pool2.acquire dbEx workFail).trace.filter PoolAction.isRelease).length = 1 ∧
    (∀ a db', workFail 0 dbEx = .ok (a, db') →
        (pool2.acquire dbEx workFail).result = .ok a ∧
        PoolAction.commit 0 ∈ (pool2.acquire dbEx workFail).trace ∧
        PoolAction.rollback 0 ∉ (pool2.acquire dbEx workFail).trace ∧
        (pool2.acquire dbEx workFail).db = db') ∧
    (∀ e, workFail 0 dbEx = .error e →
        (pool2.acquire dbEx workFail).result = .error e ∧
        PoolAction.rollback 0 ∈ (pool2.acquire dbEx workFail).trace ∧
        PoolAction.commit 0 ∉ (pool2.acquire dbEx workFail).trace ∧
        (pool2.acquire dbEx workFail).db = dbEx) ∧
    0 ∈ (pool2.acquire dbEx workFail).pool.idle :=
  acquire_commit_xor_rollback pool2 dbEx workFail 0 [1] rfl

/-- C3: an acquire that finds no idle connection within the wait timeout
fails with the pool-exhaustion error after the full timeout, grants no
connection, leaves the pool and database unchanged, and makes no second
attempt. -/
theorem acquire_exhaustion_contract {α : Type} (p : ConnectionPool) (db : Db)
    (work : Nat → Db → Except Err (α × Db)) (h : p.idle = []) :
    (p.acquire db work).result = .error .poolExhausted ∧
    (p.acquire db work).pool = p ∧
    (p.acquire db work).db = db ∧
    (p.acquire db work).elapsed = acquireTimeout ∧
    ((p.acquire db work).trace.count PoolAction.tryGet) = 1 ∧
    ∀ c, PoolAction.got c ∉ (p.acquire db work).trace := by
  obtain ⟨cap, idle, co⟩ := p
  simp only at h
  subst h
  refine ⟨rfl, rfl, rfl, rfl, rfl, ?_⟩
  intro c hc
  simp [ConnectionPool.acquire] at hc

/-- Witness for the exhaustion contract: a drained pool of capacity 2 with
both connections checked out. -/
theorem acquire_exhaustion_contract_witness :
    ((⟨2, [], [0, 1]⟩ : ConnectionPool).acquire dbEx workOk).result =
        .error .poolExhausted ∧
    ((⟨2, [], [0, 1]⟩ : ConnectionPool).acquire dbEx workOk).pool =
        (⟨2, [], [0, 1]⟩ : ConnectionPool) ∧
    ((⟨2, [], [0, 1]⟩ : ConnectionPool).acquire dbEx workOk).db = dbEx ∧
    ((⟨2, [], [0, 1]⟩ : ConnectionPool).acquire dbEx workOk).elapsed =
        acquireTimeout ∧
    (((⟨2, [], [0, 1]⟩ : ConnectionPool).acquire dbEx workOk).trace.count
        PoolAction.tryGet) = 1 ∧
    ∀ c, PoolAction.got c ∉
        ((⟨2, [], [0, 1]⟩ : ConnectionPool).acquire dbEx workOk).trace :=
  acquire_exhaustion_contract ⟨2, [], [0, 1]⟩ dbEx workOk rfl

/-- C10: close_all leaves no closed-state marker, so an acquire after a
quiescent shutdown blocks for the full timeout and fails with the same
pool-exhaustion error as transient exhaustion — observably identical to an
acquire on any open pool whose idle queue happens to be empty. -/
theorem acquire_after_close_all {α : Type} (p : ConnectionPool) (db : Db)
    (work : Nat → Db → Except Err (α × Db)) (hq : p.checkedOut = []) :
    ((p.close_all.1).acquire db work).result = .error .poolExhausted ∧
    ((p.close_all.1).acquire db work).elapsed = acquireTimeout ∧
    ((p.close_all.1).acquire db work).trace =
        [PoolAction.tryGet, PoolAction.raisedExhausted] ∧
    ∀ q : ConnectionPool, q.idle = [] →
        ((p.close_all.1).acquire db work).result = (q.acquire db work).result ∧
        ((p.close_all.1).acquire db work).trace = (q.acquire db work).trace ∧
        ((p.close_all.1).acquire db work).elapsed = (q.acquire db work).elapsed := by
  obtain ⟨cap, idle, co⟩ := p
  refine ⟨rfl, rfl, rfl, ?_⟩
  intro q hq'
  obtain ⟨qcap, qidle, qco⟩ := q
  simp only at hq'
  subst hq'
  exact ⟨rfl, rfl, rfl⟩

/-- Witness for the post-shutdown behavior at a concrete quiescent pool of
capacity 2. -/
theorem acquire_after_close_all_witness :
    ((pool2.close_all.1).acquire dbEx workOk).result = .error .poolExhausted ∧
    ((pool2.close_all.1).acquire dbEx workOk).elapsed = acquireTimeout ∧
    ((pool2.close_all.1).acquire dbEx workOk).trace =
        [PoolAction.tryGet, PoolAction.raisedExhausted] ∧
    ∀ q : ConnectionPool, q.idle = [] →
        ((pool2.close_all.1).acquire dbEx workOk).result =
            (q.acquire dbEx workOk).result ∧
        ((pool2.close_all.1).acquire dbEx workOk).trace =
            (q.acquire dbEx workOk).trace ∧
        ((pool2.close_all.1).acquire dbEx workOk).elapsed =
            (q.acquire dbEx workOk).elapsed :=
  acquire_after_close_all pool2 dbEx workOk rfl

/-- Concrete batch statement for witnesses: each tuple affects one row. -/
def stmtOkW : List Value → Db → Except Err (Int × Db) := fun _ d => .ok (1, d)

/-- Concrete batch statement for witnesses that rejects every tuple. -/
def stmtFailW : List Value → Db → Except Err (Int × Db) := fun _ _ =>
  .error (.queryFailure "bad tuple")

/-- C4: execute_many runs the whole batch as one unit of work — a single
acquire and a single commit-or-rollback — applying the statement tuple by
tuple in input order (the first tuple is applied to the incoming state,
the rest to its successor); if any tuple fails, the database is left
exactly as before the call, and on success the committed state is the
sequential application of every tuple. -/
theorem execute_many_single_unit_atomic
    (stmt : List Value → Db → Except Err (Int × Db))
    (params_list : List (List Value)) (p : ConnectionPool) (db : Db)
    (hgrant : p.idle ≠ []) :
    ((execute_many stmt params_list p db).trace.count PoolAction.tryGet) = 1 ∧
    ((execute_many stmt params_list p db).trace.filter
        PoolAction.isRelease).length = 1 ∧
    (∀ tup rest d, runMany stmt (tup :: rest) d =
        (stmt tup d).bind (fun nd =>
          (runMany stmt rest nd.2).map (fun md => (nd.1 + md.1, md.2)))) ∧
    (∀ e, runMany stmt params_list db = .error e →
        (execute_many stmt params_list p db).db = db ∧
        (execute_many stmt params_list p db).result = .error e) ∧
    (∀ n db', runMany stmt params_list db = .ok (n, db') →
        (execute_many stmt params_list p db).db = db' ∧
        (execute_many stmt params_list p db).result = .ok n) := by
  obtain ⟨cap, idle, co⟩ := p
  cases idle with
  | nil => exact absurd rfl hgrant
  | cons conn rest =>
      refine ⟨?_, ?_, ?_, ?_, ?_⟩
      · cases hr : runMany stmt params_list db with
        | ok v =>
            obtain ⟨n, d'⟩ := v
            simp [execute_many, ConnectionPool.acquire, hr]
        | error e => simp [execute_many, ConnectionPool.acquire, hr]
      · cases hr : runMany stmt params_list db with
        | ok v =>
            obtain ⟨n, d'⟩ := v
            simp [execute_many, ConnectionPool.acquire, hr, PoolAction.isRelease]
        | error e =>
            simp [execute_many, ConnectionPool.acquire, hr, PoolAction.isRelease]
      · intro tup rest' d
        cases hs : stmt tup d with
        | ok nd =>
            obtain ⟨n, d'⟩ := nd
            cases hm : runMany stmt rest' d' with
            | ok md => simp [runMany, hs, hm, Except.bind, Except.map]
            | error e => simp [runMany, hs, hm, Except.bind, Except.map]
        | error e => simp [runMany, hs, Except.bind]
      · intro e hr
        constructor <;> simp [execute_many, ConnectionPool.acquire, hr]
      · intro n db' hr
        constructor <;> simp [execute_many, ConnectionPool.acquire, hr]

/-- Witness for batch atomicity: a two-tuple batch whose statement rejects
every tuple leaves the database untouched and re-raises the error, with one
acquire and one release in the trace. -/
theorem execute_many_single_unit_atomic_witness :
    ((execute_many stmtFailW [[Value.int 1], [Value.int 2]] pool2 dbEx).trace.count
        PoolAction.tryGet) = 1 ∧
    ((execute_many stmtFailW [[Value.int 1], [Value.int 2]] pool2 dbEx).trace.filter
        PoolAction.isRelease).length = 1 ∧
    (∀ tup rest d, runMany stmtFailW (tup :: rest) d =
        (stmtFailW tup d).bind (fun nd =>
          (runMany stmtFailW rest nd.2).map (fun md => (nd.1 + md.1, md.2)))) ∧
    (∀ e, runMany stmtFailW [[Value.int 1], [Value.int 2]] dbEx = .error e →
        (execute_many stmtFailW [[Value.int 1], [Value.int 2]] pool2 dbEx).db = dbEx ∧
        (execute_many stmtFailW [[Value.int 1], [Value.int 2]] pool2 dbEx).result =
          .error e) ∧
    (∀ n db', runMany stmtFailW [[Value.int 1], [Value.int 2]] dbEx = .ok (n, db') →
        (execute_many stmtFailW [[Value.int 1], [Value.int 2]] pool2 dbEx).db = db' ∧
        (execute_many stmtFailW [[Value.int 1], [Value.int 2]] pool2 dbEx).result =
          .ok n) :=
  execute_many_single_unit_atomic stmtFailW [[Value.int 1], [Value.int 2]]
    pool2 dbEx (by decide)

/-- Row-mapping roundtrip for users: a row built from the SELECT column
list of the user queries always maps to the fully populated record. -/
theorem userRecFromRow_userRowToRow (u : UserRow) :
    userRecFromRow (userRowToRow u) =
      .ok ⟨.int u.id, .str u.username, .str u.email, .str u.password_hash,
           .int u.is_active⟩ := rfl

/-- Row-mapping roundtrip for orders. -/
theorem orderRecFromRow_orderRowToRow (o : OrderRow) :
    orderRecFromRow (orderRowToRow o) =
      .ok ⟨.int o.id, .int o.user_id, .real o.total_amount, .str o.status,
           .str o.created_at⟩ := rfl

/-- C5: each get-by-id / get-by-unique-key accessor returns the explicit
absent sentinel `none` when zero rows match — never an error and never a
partial record — and the fully mapped record when a row matches. -/
theorem get_by_key_not_found_contract (p : ConnectionPool) (db : Db)
    (hgrant : p.idle ≠ []) :
    (∀ user_id : Int, db.users.filter (fun u => u.id == user_id) = [] →
        (get_user_by_id p db user_id).result = .ok none) ∧
    (∀ (user_id : Int) (u : UserRow) (us : List UserRow),
        db.users.filter (fun v => v.id == user_id) = u :: us →
        (get_user_by_id p db user_id).result =
          .ok (some ⟨.int u.id, .str u.username, .str u.email,
                     .str u.password_hash, .int u.is_active⟩)) ∧
    (∀ username : String, db.users.filter (fun u => u.username == username) = [] →
        (get_user_by_username p db username).result = .ok none) ∧
    (∀ (username : String) (u : UserRow) (us : List UserRow),
        db.users.filter (fun v => v.username == username) = u :: us →
        (get_user_by_username p db username).result =
          .ok (some ⟨.int u.id, .str u.username, .str u.email,
                     .str u.password_hash, .int u.is_active⟩)) ∧
    (∀ order_id : Int, db.orders.filter (fun o => o.id == order_id) = [] →
        (get_order_by_id p db order_id).result = .ok none) ∧
    (∀ (order_id : Int) (o : OrderRow) (os : List OrderRow),
        db.orders.filter (fun w => w.id == order_id) = o :: os →
        (get_order_by_id p db order_id).result =
          .ok (some ⟨.int o.id, .int o.user_id, .real o.total_amount,
                     .str o.status, .str o.created_at⟩)) := by
  obtain ⟨cap, idle, co⟩ := p
  cases idle with
  | nil => exact absurd rfl hgrant
  | cons conn rest =>
      refine ⟨?_, ?_, ?_, ?_, ?_, ?_⟩
      · intro user_id h
        simp [get_user_by_id, execute, ConnectionPool.acquire, selUserById, h]
      · intro user_id u us h
        simp [get_user_by_id, execute, ConnectionPool.acquire, selUserById, h,
          userRecFromRow_userRowToRow]
      · intro username h
        simp [get_user_by_username, execute, ConnectionPool.acquire,
          selUserByUsername, h]
      · intro username u us h
        simp [get_user_by_username, execute, ConnectionPool.acquire,
          selUserByUsername, h, userRecFromRow_userRowToRow]
      · intro order_id h
        simp [get_order_by_id, execute, ConnectionPool.acquire, selOrderById, h]
      · intro order_id o os h
        simp [get_order_by_id, execute, ConnectionPool.acquire, selOrderById, h,
          orderRecFromRow_orderRowToRow]

/-- Concrete populated database used by the repository witnesses: one user
and one order. -/
def dbPop : Db :=
  ⟨[⟨1, "alice", "a@example.com", "h1", 1⟩], [⟨1, 7, 10, "pending", "t0"⟩],
   2, 2, "t1"⟩

/-- Witness for the not-found contract: user id 99 and order id 99 are
absent from the populated store, user id 1 is present. -/
theorem get_by_key_not_found_contract_witness :
    (get_user_by_id pool2 dbPop 99).result = .ok none ∧
    (get_user_by_id pool2 dbPop 1).result =
      .ok (some ⟨.int 1, .str "alice", .str "a@example.com", .str "h1",
                 .int 1⟩) ∧
    (get_order_by_id pool2 dbPop 99).result = .ok none :=
  ⟨(get_by_key_not_found_contract pool2 dbPop (by decide)).1 99 (by decide),
   (get_by_key_not_found_contract pool2 dbPop (by decide)).2.1 1
     ⟨1, "alice", "a@example.com", "h1", 1⟩ [] (by decide),
   (get_by_key_not_found_contract pool2 dbPop (by decide)).2.2.2.2.1 99
     (by decide)⟩

/-- C6: deactivate_user and update_order_status report true exactly when a
matching row existed (affected-count positive); with an absent id they do
not raise — the call is a no-op on the store and reports false. -/
theorem mutation_absent_id_noop_false (p : ConnectionPool) (db : Db)
    (hgrant : p.idle ≠ []) :
    (∀ user_id : Int, (∀ u ∈ db.users, u.id ≠ user_id) →
        (deactivate_user p db user_id).result = .ok false ∧
        (deactivate_user p db user_id).db = db) ∧
    (∀ (user_id : Int) (u : UserRow), u ∈ db.users → u.id = user_id →
        (deactivate_user p db user_id).result = .ok true) ∧
    (∀ (order_id : Int) (status : String), (∀ o ∈ db.orders, o.id ≠ order_id) →
        (update_order_status p db order_id status).result = .ok false ∧
        (update_order_status p db order_id status).db = db) ∧
    (∀ (order_id : Int) (status : String) (o : OrderRow),
        o ∈ db.orders → o.id = order_id →
        (update_order_status p db order_id status).result = .ok true) := by
  obtain ⟨cap, idle, co⟩ := p
  cases idle with
  | nil => exact absurd rfl hgrant
  | cons conn rest =>
      refine ⟨?_, ?_, ?_, ?_⟩
      · intro user_id hne
        have hf : db.users.filter (fun v => v.id == user_id) = [] := by
          rw [List.filter_eq_nil_iff]
          intro u hu
          simp [hne u hu]
        have hm : db.users.map
            (fun u => if u.id = user_id then { u with is_active := 0 } else u) =
            db.users := by
          rw [List.map_congr_left (g := id), List.map_id]
          intro u hu
          simp [hne u hu]
        constructor
        · simp [deactivate_user, execute, ConnectionPool.acquire,
            updDeactivateUser, hf]
        · simp [deactivate_user, execute, ConnectionPool.acquire,
            updDeactivateUser, hm]
      · intro user_id u hu hid
        have hmem : u ∈ db.users.filter (fun v => v.id == user_id) :=
          List.mem_filter.mpr ⟨hu, by simp [hid]⟩
        have hpos : 0 < (db.users.filter (fun v => v.id == user_id)).length :=
          List.length_pos.mpr (List.ne_nil_of_mem hmem)
        simp [deactivate_user, execute, ConnectionPool.acquire,
          updDeactivateUser]
        omega
      · intro order_id status hne
        have hf : db.orders.filter (fun w => w.id == order_id) = [] := by
          rw [List.filter_eq_nil_iff]
          intro o ho
          simp [hne o ho]
        have hm : db.orders.map
            (fun o => if o.id = order_id then { o with status := status } else o) =
            db.orders := by
          rw [List.map_congr_left (g := id), List.map_id]
          intro o ho
          simp [hne o ho]
        constructor
        · simp [update_order_status, execute, ConnectionPool.acquire,
            updOrderStatus, hf]
        · simp [update_order_status, execute, ConnectionPool.acquire,
            updOrderStatus, hm]
      · intro order_id status o ho hid
        have hmem : o ∈ db.orders.filter (fun w => w.id == order_id) :=
          List.mem_filter.mpr ⟨ho, by simp [hid]⟩
        have hpos : 0 < (db.orders.filter (fun w => w.id == order_id)).length :=
          List.length_pos.mpr (List.ne_nil_of_mem hmem)
        simp [update_order_status, execute, ConnectionPool.acquire,
          updOrderStatus]
        omega

/-- Witness for the mutation contract on the populated store: absent ids
report false and leave the store unchanged, present ids report true. -/
theorem mutation_absent_id_noop_false_witness :
    (deactivate_user pool2 dbPop 99).result = .ok false ∧
    (deactivate_user pool2 dbPop 99).db = dbPop ∧
    (deactivate_user pool2 dbPop 1).result = .ok true ∧
    (update_order_status pool2 dbPop 99 "paid").result = .ok false ∧
    (update_order_status pool2 dbPop 1 "paid").result = .ok true :=
  ⟨((mutation_absent_id_noop_false pool2 dbPop (by decide)).1 99 (by decide)).1,
   ((mutation_absent_id_noop_false pool2 dbPop (by decide)).1 99 (by decide)).2,
   (mutation_absent_id_noop_false pool2 dbPop (by decide)).2.1 1
     ⟨1, "alice", "a@example.com", "h1", 1⟩ (by decide) rfl,
   ((mutation_absent_id_noop_false pool2 dbPop (by decide)).2.2.1 99 "paid"
     (by decide)).1,
   (mutation_absent_id_noop_false pool2 dbPop (by decide)).2.2.2 1 "paid"
     ⟨1, 7, 10, "pending", "t0"⟩ (by decide) rfl⟩

/-- Result of get_orders_by_user on a granted pool, as a pure function of
the store: the matching rows in table order, mapped through the record
constructor. -/
theorem get_orders_by_user_result (p : ConnectionPool) (db : Db) (user_id : Int)
    (hgrant : p.idle ≠ []) :
    (get_orders_by_user p db user_id).result =
      mapRows orderRecFromRow
        ((db.orders.filter (fun o => o.user_id == user_id)).map orderRowToRow) := by
  obtain ⟨cap, idle, co⟩ := p
  cases idle with
  | nil => exact absurd rfl hgrant
  | cons conn rest =>
      simp only [get_orders_by_user, execute, ConnectionPool.acquire,
        selOrdersByUser]
      cases h : mapRows orderRecFromRow
          ((db.orders.filter (fun o => o.user_id == user_id)).map orderRowToRow) with
      | ok recs => simp [h]
      | error e => simp [h]

/-- C7: every order created through create_order is inserted with status
`pending`; in the spec's scenario, creating an order for user 7 with amount
42.50 on a store with no orders for user 7 makes get_orders_by_user 7
return exactly one record with status `pending` and that amount. -/
theorem create_order_pending_scenario (p : ConnectionPool) (db : Db)
    (hgrant : p.idle ≠ []) :
    (∀ (user_id : Int) (amount : Rat),
        (create_order p db user_id amount).result = .ok 1 ∧
        (create_order p db user_id amount).db.orders =
          db.orders ++ [⟨db.nextOrderId, user_id, amount, "pending", db.now⟩]) ∧
    (db.orders.filter (fun o => o.user_id == 7) = [] →
        (get_orders_by_user (create_order p db 7 (85 / 2)).pool
            (create_order p db 7 (85 / 2)).db 7).result =
          .ok [⟨.int db.nextOrderId, .int 7, .real (85 / 2), .str "pending",
                .str db.now⟩]) := by
  obtain ⟨cap, idle, co⟩ := p
  cases idle with
  | nil => exact absurd rfl hgrant
  | cons conn rest =>
      constructor
      · intro user_id amount
        constructor
        · simp [create_order, execute, ConnectionPool.acquire, insOrder]
        · simp [create_order, execute, ConnectionPool.acquire, insOrder]
      · intro hnone
        have hp : ((create_order ⟨cap, conn :: rest, co⟩ db 7 (85 / 2)).pool).idle ≠ [] := by
          simp [create_order, execute, ConnectionPool.acquire, insOrder]
        rw [get_orders_by_user_result _ _ _ hp]
        have hdb : (create_order ⟨cap, conn :: rest, co⟩ db 7 (85 / 2)).db =
            { db with
                orders := db.orders ++ [⟨db.nextOrderId, 7, 85 / 2, "pending", db.now⟩]
                nextOrderId := db.nextOrderId + 1 } := by
          simp [create_order, execute, ConnectionPool.acquire, insOrder]
        rw [hdb]
        simp [List.filter_append, hnone, mapRows, orderRecFromRow_orderRowToRow]

/-- Witness for the pending-status scenario on the empty store. -/
theorem create_order_pending_scenario_witness :
    ((create_order pool2 dbEx 7 (85 / 2)).result = .ok 1 ∧
     (create_order pool2 dbEx 7 (85 / 2)).db.orders =
       dbEx.orders ++ [⟨dbEx.nextOrderId, 7, 85 / 2, "pending", dbEx.now⟩]) ∧
    (get_orders_by_user (create_order pool2 dbEx 7 (85 / 2)).pool
        (create_order pool2 dbEx 7 (85 / 2)).db 7).result =
      .ok [⟨.int dbEx.nextOrderId, .int 7, .real (85 / 2), .str "pending",
            .str dbEx.now⟩] :=
  ⟨(create_order_pending_scenario pool2 dbEx (by decide)).1 7 (85 / 2),
   (create_order_pending_scenario pool2 dbEx (by decide)).2 rfl⟩

/-- Concrete row with every expected user column present but two of them
mistyped: `username` holds an integer and `is_active` a string. -/
def mistypedUserRow : Row :=
  [("id", .int 1), ("username", .int 99), ("email", .str "e"),
   ("password_hash", .str "h"), ("is_active", .str "yes")]

/-- C8 counterexample: the row-to-record mapping accepts a row whose
`username` and `is_active` columns are mistyped, binding the ill-typed
values instead of propagating a MappingFailure. -/
theorem userRecFromRow_accepts_mistyped :
    userRecFromRow mistypedUserRow =
      .ok ⟨.int 1, .int 99, .str "e", .str "h", .str "yes"⟩ := rfl

/-- C8 as amended: the mapping fails exactly when a row misses an expected
column or carries an unexpected one; column values are never inspected, so
a mistyped column is bound unchanged (neither rejected nor defaulted nor
coerced). -/
theorem recFromRow_checks_columns_not_types (row : Row) :
    (userRecFromRow row).isOk =
      ((userFields.all fun f => (lookupCol row f).isSome) &&
        row.all (fun pr => userFields.contains pr.1)) ∧
    (orderRecFromRow row).isOk =
      ((orderFields.all fun f => (lookupCol row f).isSome) &&
        row.all (fun pr => orderFields.contains pr.1)) := by
  constructor
  · unfold userRecFromRow
    cases hall : row.all (fun pr => userFields.contains pr.1) with
    | false => simp [hall, Except.isOk, Except.toBool]
    | true =>
        simp only [hall, if_true]
        cases h1 : lookupCol row "id" <;>
        cases h2 : lookupCol row "username" <;>
        cases h3 : lookupCol row "email" <;>
        cases h4 : lookupCol row "password_hash" <;>
        cases h5 : lookupCol row "is_active" <;>
          simp [userFields, h1, h2, h3, h4, h5, Except.isOk, Except.toBool]
  · unfold orderRecFromRow
    cases hall : row.all (fun pr => orderFields.contains pr.1) with
    | false => simp [hall, Except.isOk, Except.toBool]
    | true =>
        simp only [hall, if_true]
        cases h1 : lookupCol row "id" <;>
        cases h2 : lookupCol row "user_id" <;>
        cases h3 : lookupCol row "total_amount" <;>
        cases h4 : lookupCol row "status" <;>
        cases h5 : lookupCol row "created_at" <;>
          simp [orderFields, h1, h2, h3, h4, h5, Except.isOk, Except.toBool]

/-- C9: every repository accessor hands the driver a SQL text that does not
depend on the argument values, and the argument values appear only as the
bound positional parameter tuple. -/
theorem sql_text_independent_of_arguments :
    (∀ a b : Int, get_user_by_id_sql a = get_user_by_id_sql b) ∧
    (∀ a b : String, get_user_by_username_sql a = get_user_by_username_sql b) ∧
    (∀ a₁ b₁ c₁ a₂ b₂ c₂ : String,
        create_user_sql a₁ b₁ c₁ = create_user_sql a₂ b₂ c₂) ∧
    (∀ a b : Int, deactivate_user_sql a = deactivate_user_sql b) ∧
    (∀ a b : Int, get_orders_by_user_sql a = get_orders_by_user_sql b) ∧
    (∀ a b : Int, get_order_by_id_sql a = get_order_by_id_sql b) ∧
    (∀ (a b : Int) (q r : Rat), create_order_sql a q = create_order_sql b r) ∧
    (∀ (a b : Int) (s t : String),
        update_order_status_sql a s = update_order_status_sql b t) ∧
    (∀ user_id : Int, get_user_by_id_bound user_id = [.int user_id]) ∧
    (∀ username : String, get_user_by_username_bound username = [.str username]) ∧
    (∀ u e ph : String, create_user_bound u e ph = [.str u, .str e, .str ph]) ∧
    (∀ user_id : Int, deactivate_user_bound user_id = [.int user_id]) ∧
    (∀ user_id : Int, get_orders_by_user_bound user_id = [.int user_id]) ∧
    (∀ order_id : Int, get_order_by_id_bound order_id = [.int order_id]) ∧
    (∀ (user_id : Int) (amount : Rat),
        create_order_bound user_id amount = [.int user_id, .real amount]) ∧
    (∀ (order_id : Int) (status : String),
        update_order_status_bound order_id status = [.str status, .int order_id]) :=
  ⟨fun _ _ => rfl, fun _ _ => rfl, fun _ _ _ _ _ _ => rfl, fun _ _ => rfl,
   fun _ _ => rfl, fun _ _ => rfl, fun _ _ _ _ => rfl, fun _ _ _ _ => rfl,
   fun _ => rfl, fun _ => rfl, fun _ _ _ => rfl, fun _ => rfl, fun _ => rfl,
   fun _ => rfl, fun _ _ => rfl, fun _ _ => rfl⟩
